import Mathlib

/-!
A verification development for the StreetType asset-resolution core.

The definitions below are a shallow embedding of the JavaScript sources:

* `utils.js` — `getSystemFontFallbacks`, `generateFallbackLetterSVG`,
  `checkFileExists` (the existence probe, abstracted as a boolean oracle
  `Env.fileExists`; the cache-busting query parameter only defeats browser
  caching and does not change which path is probed);
* `assetManager.js` — class `AssetManager` (`get`, `_loadWithFallbacks`,
  `_buildFallbackPaths`, `_mapSymbolToFolderName`, `getStats`, `clearCache`);
* `database.js` — class `LetterDatabase` (`_checkForAssets`, `pathExists`,
  `getLetterPath`, `tryDecorativePathVariations`, `getLetterVariants`).

JavaScript strings become `String`, numbers become `Nat`, `null`/`undefined`
results become `Option`, and `Math.random()` draws are threaded explicitly
through `Env.rand`.  Leading underscores of private method names are dropped
because Lean reserves them.
-/

/-! ## Generic string and character helpers mirroring the JavaScript idioms -/

/-- JS `s.padStart(2, &quot;0&quot;)`: left-pad with zeros up to length 2. -/
def padStart2 (s : String) : String :=
  String.mk (List.replicate (2 - s.length) '0') ++ s

/-- JS regex character class `[a-zA-Z]` on a single character. -/
def isAsciiAlpha (c : Char) : Bool :=
  ('a' ≤ c && c ≤ 'z') || ('A' ≤ c && c ≤ 'Z')

/-- JS regex character class `[0-9]` on a single character. -/
def isAsciiDigit (c : Char) : Bool :=
  '0' ≤ c && c ≤ '9'

/-- JS `/^[…]$/.test(s)`: the string is a single character satisfying `p`. -/
def matchesSingle (p : Char → Bool) (s : String) : Bool :=
  match s.data with
  | [c] => p c
  | _ => false

/-- JS `s.toUpperCase()`, character by character (all characters in play
are ASCII). -/
def toUpperStr (s : String) : String :=
  String.mk (s.data.map Char.toUpper)

/-- JS `s.split(sep)` for a single-character separator, on character
lists. -/
def splitOnCharList (sep : Char) : List Char → List (List Char)
  | [] => [[]]
  | c :: cs =>
    if c = sep then [] :: splitOnCharList sep cs
    else
      match splitOnCharList sep cs with
      | h :: t => (c :: h) :: t
      | [] => [[c]]

/-- JS `s.split(sep)` for a single-character separator. -/
def splitStr (sep : Char) (s : String) : List String :=
  (splitOnCharList sep s.data).map String.mk

/-- JS `parts.join(&quot;/&quot;)`. -/
def joinSlash : List String → String
  | [] => ""
  | h :: t => t.foldl (fun acc x => acc ++ "/" ++ x) h

/-- The apostrophe character, written by code point to keep sources plain. -/
def apostropheChar : Char := Char.ofNat 39

/-- The double-quote character, written by code point. -/
def quoteChar : Char := Char.ofNat 34

/-- The opening-brace character, written by code point. -/
def braceOpenChar : Char := Char.ofNat 123

/-- The closing-brace character, written by code point. -/
def braceCloseChar : Char := Char.ofNat 125

/-- Characters of the symbol regex in `utils.js`
`generateFallbackLetterSVG` (no backslash in that class). -/
def utilsSymbolChars : List Char :=
  ['!', '@', '#', '$', '%', '^', '&', '*', '(', ')', '_', '+', '-', '=',
   '[', ']', braceOpenChar, braceCloseChar, '|', ';', apostropheChar, ':',
   quoteChar, ',', '.', '/', '<', '>', '?']

/-- Membership test for the `utils.js` symbol regex. -/
def isUtilsSymbolChar (c : Char) : Bool := utilsSymbolChars.contains c

/-- Characters of the symbol regex in `database.js` `getLetterPath`
(this one includes the backslash). -/
def dbSymbolChars : List Char :=
  ['!', '@', '#', '$', '%', '^', '&', '*', '(', ')', '+', '\\', '=',
   '[', ']', braceOpenChar, braceCloseChar, '|', ';', apostropheChar, ':',
   quoteChar, ',', '.', '/', '<', '>', '?', '_', '-']

/-- Membership test for the `database.js` symbol regex. -/
def isDbSymbolChar (c : Char) : Bool := dbSymbolChars.contains c

/-- Uppercase hexadecimal digit, as produced by JS `encodeURIComponent`. -/
def hexDigitUpper (n : Nat) : Char :=
  Char.ofNat (if n < 10 then 48 + n else 55 + n)

/-- UTF-8 bytes of a character (standard encoding arithmetic). -/
def utf8Bytes (c : Char) : List Nat :=
  let n := c.toNat
  if n < 128 then [n]
  else if n < 2048 then [192 + n / 64, 128 + n % 64]
  else if n < 65536 then [224 + n / 4096, 128 + (n / 64) % 64, 128 + n % 64]
  else [240 + n / 262144, 128 + (n / 4096) % 64, 128 + (n / 64) % 64,
        128 + n % 64]

/-- Characters that JS `encodeURIComponent` leaves unescaped. -/
def isUnreservedURIChar (c : Char) : Bool :=
  isAsciiAlpha c || isAsciiDigit c ||
    (['-', '_', '.', '!', '~', '*', '(', ')'].contains c) ||
    c == apostropheChar

/-- Percent-encoding of one byte, uppercase hex. -/
def percentEncodeByte (b : Nat) : String :=
  "%" ++ String.mk [hexDigitUpper (b / 16), hexDigitUpper (b % 16)]

/-- JS `encodeURIComponent`. -/
def encodeURIComponent (s : String) : String :=
  String.join (s.data.map fun c =>
    if isUnreservedURIChar c then String.mk [c]
    else String.join ((utf8Bytes c).map percentEncodeByte))

/-! ## Embedding of `utils.js` -/

/-- JS `style?.split(&quot;-&quot;)[0] || style` — the base style name. -/
def baseStyleOf (style : String) : String :=
  let s0 := (splitStr '-' style).headD ""
  if s0 = "" then style else s0

/-- Source: `getSystemFontFallbacks` in `utils.js`. -/
def getSystemFontFallbacks (style : String) : String :=
  let baseStyle := baseStyleOf style
  if baseStyle = "sans" then "Arial, Helvetica, sans-serif"
  else if baseStyle = "serif" then "Georgia, \"Times New Roman\", serif"
  else if baseStyle = "mono" then "\"Courier New\", Courier, monospace"
  else if baseStyle = "script" then "\"Comic Sans MS\", cursive, sans-serif"
  else if baseStyle = "decorative" then "\"Impact\", fantasy"
  else "sans-serif"

/-- The `styleColorMap` of `generateFallbackLetterSVG`:
`(fill, background, stroke)` per base style. -/
def styleColorMap : List (String × String × String × String) :=
  [("sans", "#3a7ca5", "#f0f8ff", "#2a5a7a"),
   ("serif", "#d63030", "#fff0f0", "#a02020"),
   ("mono", "#2d882d", "#f0fff0", "#1d681d"),
   ("script", "#aa7c39", "#fff8e6", "#8a5c19"),
   ("decorative", "#9933cc", "#f8f0ff", "#7922aa")]

/-- The `(fill, background, stroke)` triple selected by
`generateFallbackLetterSVG`, after the style map and the number/symbol
overrides (faithful to the `if` / `else if` order in the source). -/
def svgColors (ch style : String) : String × String × String :=
  let base :=
    match styleColorMap.find? (fun e => e.1 == baseStyleOf style) with
    | some e => (e.2.1, e.2.2.1, e.2.2.2)
    | none => ("#333", "#f0f0f0", "#ccc")
  if matchesSingle isAsciiDigit ch then ("#6a5acd", "#f5f0ff", "#483d8b")
  else if matchesSingle isUtilsSymbolChar ch then
    ("#ff8c00", "#fff8f0", "#cc7000")
  else base

/-- The SVG markup built by `generateFallbackLetterSVG` before URL-encoding.
`rand` stands for the `Math.floor(Math.random() * 10000)` draw used in the
filter id. -/
def fallbackSVGBody (ch style : String) (rand : Nat) : String :=
  let font := getSystemFontFallbacks style
  let fill := (svgColors ch style).1
  let background := (svgColors ch style).2.1
  let stroke := (svgColors ch style).2.2
  let filterId := "shadow_" ++ ch ++ "_" ++ Nat.repr (rand % 10000)
  "\n    <svg xmlns=\"http://www.w3.org/2000/svg\" width=\"40\" height=\"60\" viewBox=\"0 0 40 60\" preserveAspectRatio=\"xMidYMid meet\">\n      <defs>\n        <filter id=\"" ++
    filterId ++
    "\">\n          <feDropShadow dx=\"1\" dy=\"1\" stdDeviation=\"1\" flood-opacity=\"0.3\"/>\n        </filter>\n      </defs>\n      <rect width=\"40\" height=\"60\" fill=\"" ++
    background ++ "\" stroke=\"" ++ stroke ++
    "\" stroke-width=\"1\"/>\n      <text \n        x=\"20\" \n        y=\"35\" \n        font-family=\"" ++
    font ++ "\" \n        font-size=\"30\" \n        fill=\"" ++ fill ++
    "\" \n        text-anchor=\"middle\" \n        dominant-baseline=\"middle\"\n        filter=\"url(#" ++
    filterId ++ ")\"\n      >" ++ ch ++ "</text>\n    </svg>"

/-- Source: `generateFallbackLetterSVG` in `utils.js` — a data URL embedding
the character as inline SVG. -/
def generateFallbackLetterSVG (ch style : String) (rand : Nat) : String :=
  "data:image/svg+xml;charset=utf-8," ++
    encodeURIComponent (fallbackSVGBody ch style rand)

/-- The environment a run is performed against: which paths exist (the
outcome of `checkFileExists` / image probing, where both error and timeout
mean `false`), and the random draw used by SVG synthesis. -/
structure Env where
  fileExists : String → Bool
  rand : Nat

/-! ## Embedding of `assetManager.js` -/

/-- An asset request, the argument object of `AssetManager.get`.  The JS
callers always pass all five fields (`city` and `variant` have defaults
`&quot;NYC&quot;` and `&quot;01&quot;` at the destructuring site). -/
structure Request where
  char : String
  style : String
  charCase : String
  city : String
  variant : String

/-- The `this.stats` counters of `AssetManager`. -/
structure Stats where
  requested : Nat
  loaded : Nat
  failed : Nat
  cached : Nat
  fallbacks : Nat

/-- The symbol-to-folder table shared verbatim by
`AssetManager._mapSymbolToFolderName` and `database.js` `getLetterPath`. -/
def symbolFolderMap : List (String × String) :=
  [("!", "exclamation"), ("?", "question"), (".", "period"), (",", "comma"),
   (":", "colon"), (";", "semicolon"), (String.mk [quoteChar], "quote"),
   (String.mk [apostropheChar], "apostrophe"), ("(", "parenthesis-open"),
   (")", "parenthesis-close"), ("[", "bracket-open"), ("]", "bracket-close"),
   (String.mk [braceOpenChar], "brace-open"),
   (String.mk [braceCloseChar], "brace-close"), ("<", "angle-open"),
   (">", "angle-close"), ("+", "plus"), ("-", "minus"), ("*", "asterisk"),
   ("/", "slash"), ("\\", "backslash"), ("|", "vertical-bar"),
   ("=", "equals"), ("@", "at"), ("#", "hash"), ("$", "dollar"),
   ("%", "percent"), ("^", "caret"), ("&", "ampersand"), ("_", "underscore")]

/-- Source: `AssetManager._mapSymbolToFolderName` — `symbolMap[symbol] ||
&quot;symbol&quot;`. -/
def mapSymbolToFolderName (symbol : String) : String :=
  match symbolFolderMap.find? (fun kv => kv.1 == symbol) with
  | some kv => kv.2
  | none => "symbol"

/-- The JS loop `for (let i = 1; i <= 5; i++)` over padded variant strings,
feeding each `i.toString().padStart(2, &quot;0&quot;)` to a per-iteration body `g`
that either pushes a path or skips. -/
def loopVariants {α : Type} (g : String → Option α) : List α :=
  (List.range' 1 5).filterMap (fun i => g (padStart2 (Nat.repr i)))

/-- The per-iteration body used by all three branches of
`_buildFallbackPaths`: push `mk altVariant` when the padded loop index
differs from the requested padded variant. -/
def altVariantFilter {α : Type} (pv : String) (mk : String → α) :
    String → Option α :=
  fun altVariant => if altVariant ≠ pv then some (mk altVariant) else none

/-- The candidate paths of `AssetManager._buildFallbackPaths` before the
final `paths.push(&quot;assets/missing.png&quot;)`. -/
def buildFallbackPre (req : Request) : List String :=
  let paddedVariant := padStart2 req.variant
  if matchesSingle isAsciiAlpha req.char then
    let letter := toUpperStr req.char
    let styleCase := req.style ++ "-" ++ req.charCase
    ["assets/Alphabet/cities/" ++ req.city ++ "/Alphabet/" ++ letter ++ "/" ++
       styleCase ++ "/" ++ paddedVariant ++ ".jpg",
     "assets/Alphabet/cities/" ++ req.city ++ "/fallback/" ++ styleCase ++
       "/" ++ paddedVariant ++ ".jpg"] ++
    loopVariants (altVariantFilter paddedVariant (fun altVariant =>
      "assets/Alphabet/cities/" ++ req.city ++ "/Alphabet/" ++ letter ++
        "/" ++ styleCase ++ "/" ++ altVariant ++ ".jpg"))
  else if matchesSingle isAsciiDigit req.char then
    ["assets/Numbers/" ++ req.char ++ "/" ++ paddedVariant ++ ".jpg"] ++
    loopVariants (altVariantFilter paddedVariant (fun altVariant =>
      "assets/Numbers/" ++ req.char ++ "/" ++ altVariant ++ ".jpg"))
  else
    let symbolName := mapSymbolToFolderName req.char
    ["assets/Symbols/" ++ symbolName ++ "/" ++ paddedVariant ++ ".jpg"] ++
    loopVariants (altVariantFilter paddedVariant (fun altVariant =>
      "assets/Symbols/" ++ symbolName ++ "/" ++ altVariant ++ ".jpg"))

/-- Source: `AssetManager._buildFallbackPaths` — the branch paths followed by
the global fallback `assets/missing.png`. -/
def buildFallbackPaths (req : Request) : List String :=
  buildFallbackPre req ++ ["assets/missing.png"]

/-- The probing loop of `_loadWithFallbacks`: try each path in order with
the existence oracle; return the first success (if any) together with the
list of paths actually probed, in probe order. -/
def tryPaths (ex : String → Bool) : List String → Option String × List String
  | [] => (none, [])
  | p :: ps =>
    if ex p then (some p, [p])
    else
      let r := tryPaths ex ps
      (r.1, p :: r.2)

/-- Source: `AssetManager._loadWithFallbacks` — probe candidates in order;
first success increments `loaded`; total failure synthesizes the SVG
fallback and increments `fallbacks`.  Returns the result, the updated
stats, and the probe log. -/
def loadWithFallbacks (env : Env) (req : Request) (st : Stats) :
    String × Stats × List String :=
  let paths := buildFallbackPaths req
  match tryPaths env.fileExists paths with
  | (some p, log) => (p, { st with loaded := st.loaded + 1 }, log)
  | (none, log) =>
    let fullStyle :=
      if req.charCase = "" then req.style
      else req.style ++ "-" ++ req.charCase
    (generateFallbackLetterSVG req.char fullStyle env.rand,
     { st with fallbacks := st.fallbacks + 1 }, log)

/-- Association-list lookup, the model of `Map.get` keyed by strings. -/
def alookup? {α : Type} (k : String) : List (String × α) → Option α
  | [] => none
  | kv :: rest => if kv.1 = k then some kv.2 else alookup? k rest

/-- The quiescent state of an `AssetManager` between calls: the memo `cache`
and the counters.  The `loadingPromises` map is empty at every quiescent
point of the sequential model (each `get` runs its load to completion), so
it is not carried here; the concurrent arrival model below carries it
explicitly. -/
structure AMState where
  cache : List (String × String)
  stats : Stats

/-- The cache key `char_style_case_city_variant` of `AssetManager.get`. -/
def cacheKey (req : Request) : String :=
  req.char ++ "_" ++ req.style ++ "_" ++ req.charCase ++ "_" ++ req.city ++
    "_" ++ req.variant

/-- What one `AssetManager.get` call produces: the resolved URL, the state
after the call, and the list of existence probes it performed. -/
structure GetResult where
  url : String
  state : AMState
  log : List String

/-- Source: `AssetManager.get` — bump `requested`, consult the cache
(bumping `cached` on a hit), otherwise run the fallback chain and memoize
its result. -/
def AssetManager.get (env : Env) (s : AMState) (req : Request) : GetResult :=
  let stats1 := { s.stats with requested := s.stats.requested + 1 }
  let k := cacheKey req
  match alookup? k s.cache with
  | some url =>
    { url := url,
      state := { s with stats := { stats1 with cached := stats1.cached + 1 } },
      log := [] }
  | none =>
    let r := loadWithFallbacks env req stats1
    { url := r.1,
      state := { cache := (k, r.1) :: s.cache, stats := r.2.1 },
      log := r.2.2 }

/-- Source: `AssetManager.clearCache` — wipes the memo table and the
in-flight map; the stats counters are left untouched. -/
def clearCache (s : AMState) : AMState :=
  { cache := [], stats := s.stats }

/-- The operations a caller can perform on the singleton `assetManager`. -/
inductive Op where
  | get (req : Request)
  | clear

/-- One caller operation applied to a quiescent state. -/
def stepOp (env : Env) (s : AMState) : Op → AMState
  | Op.get req => (AssetManager.get env s req).state
  | Op.clear => clearCache s

/-- A sequence of caller operations. -/
def runOps (env : Env) (s : AMState) : List Op → AMState
  | [] => s
  | op :: ops => runOps env (stepOp env s op) ops

/-- The state of a freshly constructed `AssetManager`. -/
def initialAMState : AMState :=
  { cache := [], stats := ⟨0, 0, 0, 0, 0⟩ }

/-- The snapshot returned by `AssetManager.getStats`. -/
structure StatsSnapshot where
  requested : Nat
  loaded : Nat
  failed : Nat
  cached : Nat
  fallbacks : Nat
  cacheSize : Nat
  pendingLoads : Nat

/-- Source: `AssetManager.getStats` — spread of `this.stats` plus
`cache.size` and `loadingPromises.size` (the latter is 0 at every quiescent
point of the sequential model). -/
def getStats (s : AMState) : StatsSnapshot :=
  { requested := s.stats.requested, loaded := s.stats.loaded,
    failed := s.stats.failed, cached := s.stats.cached,
    fallbacks := s.stats.fallbacks, cacheSize := s.cache.length,
    pendingLoads := 0 }

/-! ## Arrival model for concurrent `get` calls

JavaScript runs `get` on a single event-loop thread: the section from entry
to the registration of the load promise in `loadingPromises` executes
atomically (the first `await` is inside `_loadWithFallbacks`).  An arrival
below is exactly that synchronous section.  A caller therefore observes one
of three outcomes: a memoized value, the ticket of the load promise already
in flight for its key, or the ticket of a load promise it just created —
callers holding the same ticket await the same promise and hence receive
the same eventual result. -/

/-- What the synchronous section of one `get` call hands its caller. -/
inductive GetOutcome where
  | cachedHit (url : String)
  | joined (ticket : Nat)
  | started (ticket : Nat)
deriving DecidableEq

/-- The shared state seen by interleaved `get` calls: memo table, in-flight
map (key to promise ticket), a fresh-ticket counter, and the number of
probe sequences (`_loadWithFallbacks` runs) started so far. -/
structure CoState where
  cache : List (String × String)
  loading : List (String × Nat)
  nextTicket : Nat
  probesStarted : Nat

/-- The synchronous section of `AssetManager.get` for one arriving caller:
cache check, then in-flight check, then promise creation. -/
def arrive (s : CoState) (k : String) : GetOutcome × CoState :=
  match alookup? k s.cache with
  | some url => (GetOutcome.cachedHit url, s)
  | none =>
    match alookup? k s.loading with
    | some t => (GetOutcome.joined t, s)
    | none =>
      (GetOutcome.started s.nextTicket,
       { s with
         loading := (k, s.nextTicket) :: s.loading,
         nextTicket := s.nextTicket + 1,
         probesStarted := s.probesStarted + 1 })

/-! ## Embedding of `database.js` (`LetterDatabase`) -/

/-- The adaptive flags a `LetterDatabase` instance carries after its
constructor ran `_checkForAssets`: whether that pass ran
(`pathExistsCache.checked`), whether any asset was detected, and the
remembered decorative path format.  The per-path entries of
`pathExistsCache` are omitted: against a fixed existence oracle a cached
answer coincides with re-probing, so they are observationally inert. -/
structure DBState where
  checked : Bool
  assetsDetected : Bool
  decorativePathFormat : Option String

/-- Source: `LetterDatabase.pathExists` — short-circuits to `false` once the
startup pass has concluded that no assets exist at all; otherwise probes. -/
def pathExists (env : Env) (db : DBState) (p : String) : Bool :=
  if db.checked && !db.assetsDetected then false else env.fileExists p

/-- The `basicPaths` probed by `_checkForAssets` for alphabet assets. -/
def basicPaths : List String :=
  ["assets/Alphabet/cities/NYC/Alphabet/A/sans-upper/01.jpg",
   "assets/Alphabet/cities/NYC/Alphabet/a/sans-lower/01.jpg",
   "assets/Alphabet/cities/NYC/Alphabet/A/serif-upper/01.jpg"]

/-- The `numberPaths` probed by `_checkForAssets`. -/
def numberPaths : List String :=
  ["assets/Numbers/1/01.jpg", "assets/Numbers/0/01.jpg"]

/-- The `symbolPaths` probed by `_checkForAssets`. -/
def symbolPaths : List String :=
  ["assets/Symbols/period/01.jpg", "assets/Symbols/comma/01.jpg"]

/-- The `decorativePathVariations` probed once by `_checkForAssets`; the
first hit becomes the remembered `decorativePathFormat`. -/
def decorativeStartupVariations : List String :=
  ["assets/Alphabet/cities/NYC/Alphabet/A/Display/Decorative-upper/01.jpg",
   "assets/Alphabet/cities/NYC/Alphabet/A/Decorative-upper/01.jpg",
   "assets/Alphabet/cities/NYC/Alphabet/A/Display/Decorative/upper/01.jpg",
   "assets/Alphabet/cities/NYC/Alphabet/A/display/decorative-upper/01.jpg",
   "assets/Alphabet/cities/NYC/Alphabet/Q/Display/Decorative-upper/01.jpg",
   "assets/Alphabet/cities/NYC/Alphabet/Q/Decorative-upper/01.jpg"]

/-- Source: `LetterDatabase._checkForAssets` — the one-time startup probe
pass, run during construction (before it, `checked` is false so `pathExists`
probes directly). -/
def checkForAssets (env : Env) : DBState :=
  let alphabetFound := basicPaths.any env.fileExists
  let numberFound := numberPaths.any env.fileExists
  let symbolFound := symbolPaths.any env.fileExists
  let decoFormat := decorativeStartupVariations.find? env.fileExists
  { checked := true,
    assetsDetected :=
      alphabetFound || numberFound || symbolFound || decoFormat.isSome,
    decorativePathFormat := decoFormat }

/-- JS `decorativePart.replace(/(upper|lower)/, rep)` on the character
list: replace the first occurrence of either word, scanning left to right
(no global flag, and the two alternatives cannot match at one position). -/
def replaceULChars (rep : List Char) : List Char → List Char
  | [] => []
  | c :: cs =>
    if List.take 5 (c :: cs) = "upper".data ∨
        List.take 5 (c :: cs) = "lower".data then
      rep ++ List.drop 5 (c :: cs)
    else c :: replaceULChars rep cs

/-- String wrapper for `replaceULChars`. -/
def replaceFirstUpperLower (s rep : String) : String :=
  String.mk (replaceULChars rep.data s.data)

/-- The decorative style path derived from a remembered format string in
`getLetterPath`: split on `/`, locate the letter component (`A` or `Q`),
take everything strictly between it and the file name, and re-case it. -/
def decorativeStylePath (fmt caseType : String) : String :=
  let pathParts := splitStr '/' fmt
  match pathParts.findIdx? (fun part => part == "A" || part == "Q") with
  | some letterIndex =>
    if letterIndex + 1 < pathParts.length then
      let decorativePart :=
        joinSlash ((pathParts.drop (letterIndex + 1)).dropLast)
      replaceFirstUpperLower decorativePart caseType
    else "Display/Decorative-" ++ caseType
  | none => "Display/Decorative-" ++ caseType

/-- Source: `LetterDatabase.getLetterPath` — path for one numbered variant,
`none` for unsupported characters or unknown style keys. -/
def getLetterPath (db : DBState) (character styleKey location : String)
    (variantIndex : Nat) : Option String :=
  let idx := padStart2 (Nat.repr variantIndex)
  if matchesSingle isAsciiDigit character then
    some ("assets/Numbers/" ++ character ++ "/" ++ idx ++ ".jpg")
  else if matchesSingle isDbSymbolChar character then
    let symbolName := mapSymbolToFolderName character
    some ("assets/Symbols/" ++ symbolName ++ "/" ++ idx ++ ".jpg")
  else if matchesSingle isAsciiAlpha character then
    let letter := toUpperStr character
    let caseType := if character = letter then "upper" else "lower"
    let stylePath? : Option String :=
      if styleKey = "sans" then some ("sans-" ++ caseType)
      else if styleKey = "serif" then some ("serif-" ++ caseType)
      else if styleKey = "decorative" ∨ styleKey = "display" then
        match db.decorativePathFormat with
        | some fmt => some (decorativeStylePath fmt caseType)
        | none => some ("Display/Decorative-" ++ caseType)
      else if styleKey = "random" then some ("sans-" ++ caseType)
      else none
    stylePath?.map (fun stylePath =>
      "assets/Alphabet/cities/" ++ location ++ "/Alphabet/" ++ letter ++
        "/" ++ stylePath ++ "/" ++ idx ++ ".jpg")
  else none

/-- The three structural layouts tried by `tryDecorativePathVariations`:
grouping folder with hyphen, no grouping folder, grouping folder without a
hyphen. -/
def decorativePathVariationsFor (character caseType location : String)
    (variantIndex : Nat) : List String :=
  let idx := padStart2 (Nat.repr variantIndex)
  let letter := toUpperStr character
  ["assets/Alphabet/cities/" ++ location ++ "/Alphabet/" ++ letter ++
     "/Display/Decorative-" ++ caseType ++ "/" ++ idx ++ ".jpg",
   "assets/Alphabet/cities/" ++ location ++ "/Alphabet/" ++ letter ++
     "/Decorative-" ++ caseType ++ "/" ++ idx ++ ".jpg",
   "assets/Alphabet/cities/" ++ location ++ "/Alphabet/" ++ letter ++
     "/Display/Decorative/" ++ caseType ++ "/" ++ idx ++ ".jpg"]

/-- Source: `LetterDatabase.tryDecorativePathVariations` — first existing
layout, or `none`. -/
def tryDecorativePathVariations (env : Env) (db : DBState)
    (character caseType location : String) (variantIndex : Nat) :
    Option String :=
  (decorativePathVariationsFor character caseType location variantIndex).find?
    (pathExists env db)

/-- The JS `character === character.toUpperCase() ? &quot;upper&quot; : &quot;lower&quot;`. -/
def caseTypeOf (character : String) : String :=
  if character = toUpperStr character then "upper" else "lower"

/-- Source: `LetterDatabase.getLetterVariants` — gather up to three numbered
variants that actually exist; decorative letters first try the structural
layout probe per variant; an empty harvest yields the SVG fallback unless
`skipFallback`. -/
def getLetterVariants (env : Env) (db : DBState)
    (character styleKey location : String) (skipFallback : Bool) :
    List String :=
  if db.checked && !db.assetsDetected && !skipFallback then
    [generateFallbackLetterSVG character
      (styleKey ++ "-" ++ caseTypeOf character) env.rand]
  else
    let isNumber := matchesSingle isAsciiDigit character
    let isSymbol := matchesSingle isDbSymbolChar character
    let decoFound :=
      if matchesSingle isAsciiAlpha character &&
          (styleKey == "decorative" || styleKey == "display") then
        [1, 2, 3].filterMap (fun i =>
          tryDecorativePathVariations env db character (caseTypeOf character)
            location i)
      else []
    if !decoFound.isEmpty then decoFound
    else
      let found :=
        if isNumber || isSymbol then
          match getLetterPath db character styleKey location 1 with
          | some primaryPath =>
            (if pathExists env db primaryPath then [primaryPath] else []) ++
            [2, 3].filterMap (fun i =>
              match getLetterPath db character styleKey location i with
              | some variantPath =>
                if pathExists env db variantPath then some variantPath
                else none
              | none => none)
          | none => []
        else
          [1, 2, 3].filterMap (fun i =>
            match getLetterPath db character styleKey location i with
            | some p => if pathExists env db p then some p else none
            | none => none)
      if found.isEmpty && !skipFallback then
        let fullStyle :=
          if matchesSingle isAsciiAlpha character then
            styleKey ++ "-" ++ caseTypeOf character
          else styleKey
        [generateFallbackLetterSVG character fullStyle env.rand]
      else found

/-! ## Concrete fixtures used by witnesses and counterexamples -/

/-- The spec's worked example request: letter A, sans, upper, NYC, 01. -/
def reqA : Request := ⟨"A", "sans", "upper", "NYC", "01"⟩

/-- Environment where only the NYC city-fallback path for `reqA` exists. -/
def envCityFallbackOnly : Env :=
  ⟨fun p => p == "assets/Alphabet/cities/NYC/fallback/sans-upper/01.jpg", 0⟩

/-- Environment where no path exists at all. -/
def envNothing : Env := ⟨fun _ => false, 0⟩

/-- Environment where exactly one number asset and one decorative letter
asset in the ungrouped layout exist: `assets/Numbers/1/01.jpg` and
`assets/Alphabet/cities/NYC/Alphabet/B/Decorative-upper/01.jpg`. -/
def envUngroupedB : Env :=
  ⟨fun p =>
    p == "assets/Numbers/1/01.jpg" ||
    p == "assets/Alphabet/cities/NYC/Alphabet/B/Decorative-upper/01.jpg", 0⟩

/-- Environment where the ungrouped decorative layout exists for letter B at
variants 01, 02 and 03 (plus one number asset so startup detection
succeeds). -/
def envUngroupedB123 : Env :=
  ⟨fun p =>
    p == "assets/Numbers/1/01.jpg" ||
    p == "assets/Alphabet/cities/NYC/Alphabet/B/Decorative-upper/01.jpg" ||
    p == "assets/Alphabet/cities/NYC/Alphabet/B/Decorative-upper/02.jpg" ||
    p == "assets/Alphabet/cities/NYC/Alphabet/B/Decorative-upper/03.jpg", 0⟩

/-- A database state after a startup pass that found assets but no
decorative layout. -/
def dbDetectedNoFormat : DBState := ⟨true, true, none⟩

/-- A database state whose startup pass remembered the ungrouped decorative
layout (structure 2 of `decorativePathVariations`). -/
def dbUngroupedFormat : DBState :=
  ⟨true, true,
   some "assets/Alphabet/cities/NYC/Alphabet/A/Decorative-upper/01.jpg"⟩

/-- Pointwise order on the stats counters. -/
def StatsLe (a b : Stats) : Prop :=
  a.requested ≤ b.requested ∧ a.loaded ≤ b.loaded ∧ a.failed ≤ b.failed ∧
    a.cached ≤ b.cached ∧ a.fallbacks ≤ b.fallbacks

/-! ## Helper lemmas -/

/-- The JS variant loop enumerates exactly the padded strings 01 to 05. -/
theorem loopVariants_eq {α : Type} (g : String → Option α) :
    loopVariants g = ["01", "02", "03", "04", "05"].filterMap g := by
  have h : List.range' 1 5 = [1, 2, 3, 4, 5] := by decide
  have e1 : padStart2 (Nat.repr 1) = "01" := by decide
  have e2 : padStart2 (Nat.repr 2) = "02" := by decide
  have e3 : padStart2 (Nat.repr 3) = "03" := by decide
  have e4 : padStart2 (Nat.repr 4) = "04" := by decide
  have e5 : padStart2 (Nat.repr 5) = "05" := by decide
  unfold loopVariants
  rw [h]
  simp only [List.filterMap_cons, List.filterMap_nil, e1, e2, e3, e4, e5]

/-- For a padded variant among 01..05, the variant loop keeps exactly the
four other variants. -/
theorem loopVariants_length {α : Type} (pv : String) (mk : String → α)
    (h : pv ∈ ["01", "02", "03", "04", "05"]) :
    (loopVariants (altVariantFilter pv mk)).length = 4 := by
  rw [loopVariants_eq]
  unfold altVariantFilter
  simp only [List.mem_cons, List.not_mem_nil, or_false] at h
  rcases h with rfl | rfl | rfl | rfl | rfl <;> simp [List.filterMap_cons]

/-- If no candidate exists, the probing loop visits every candidate and
reports failure. -/
theorem tryPaths_none (ex : String → Bool) (ps : List String)
    (h : ∀ p ∈ ps, ex p = false) : tryPaths ex ps = (none, ps) := by
  induction ps with
  | nil => rfl
  | cons p rest ih =>
    have hp : ex p = false := h p (List.mem_cons_self p rest)
    have hrest : ∀ q ∈ rest, ex q = false := fun q hq =>
      h q (List.mem_cons_of_mem p hq)
    simp [tryPaths, hp, ih hrest]

/-- The probe log is a sublist of the candidate list: probing never visits
a path the resolver did not list. -/
theorem tryPaths_log_sublist (ex : String → Bool) (ps : List String) :
    List.Sublist (tryPaths ex ps).2 ps := by
  induction ps with
  | nil => simp [tryPaths]
  | cons p rest ih =>
    by_cases hp : ex p
    · simp [tryPaths, hp]
    · simp only [tryPaths, hp, Bool.false_eq_true, if_false]
      exact ih.cons₂ p

/-- String concatenation is associative. -/
theorem strAppendAssoc (a b c : String) : a ++ b ++ c = a ++ (b ++ c) := by
  cases a with
  | mk la =>
    cases b with
    | mk lb =>
      cases c with
      | mk lc =>
        show String.mk (la ++ lb ++ lc) = String.mk (la ++ (lb ++ lc))
        rw [List.append_assoc]

/-- The stats order is reflexive. -/
theorem statsLe_refl (a : Stats) : StatsLe a a := by
  unfold StatsLe
  omega

/-- The stats order is transitive. -/
theorem statsLe_trans {a b c : Stats} (h1 : StatsLe a b) (h2 : StatsLe b c) :
    StatsLe a c := by
  unfold StatsLe at h1 h2 ⊢
  omega

/-- One load leaves every counter at or above its old value. -/
theorem loadWithFallbacks_mono (env : Env) (req : Request) (st : Stats) :
    StatsLe st (loadWithFallbacks env req st).2.1 := by
  unfold loadWithFallbacks
  rcases htp : tryPaths env.fileExists (buildFallbackPaths req) with ⟨o, log⟩
  cases o <;> simp [htp, StatsLe]

/-- One load never touches the `failed` counter. -/
theorem loadWithFallbacks_failed (env : Env) (req : Request) (st : Stats) :
    (loadWithFallbacks env req st).2.1.failed = st.failed := by
  unfold loadWithFallbacks
  rcases htp : tryPaths env.fileExists (buildFallbackPaths req) with ⟨o, log⟩
  cases o <;> simp [htp]

/-- One caller operation leaves every counter at or above its old value. -/
theorem stepOp_mono (env : Env) (s : AMState) (op : Op) :
    StatsLe s.stats (stepOp env s op).stats := by
  cases op with
  | clear => exact statsLe_refl s.stats
  | get req =>
    unfold stepOp AssetManager.get
    cases h : alookup? (cacheKey req) s.cache with
    | some url => simp [h, StatsLe]
    | none =>
      simp only [h]
      have hm := loadWithFallbacks_mono env req
        { s.stats with requested := s.stats.requested + 1 }
      refine statsLe_trans ?_ hm
      unfold StatsLe
      refine ⟨?_, ?_, ?_, ?_, ?_⟩ <;> simp

/-- One caller operation never changes the `failed` counter. -/
theorem stepOp_failed (env : Env) (s : AMState) (op : Op) :
    (stepOp env s op).stats.failed = s.stats.failed := by
  cases op with
  | clear => rfl
  | get req =>
    unfold stepOp AssetManager.get
    cases h : alookup? (cacheKey req) s.cache with
    | some url => simp [h]
    | none =>
      simp only [h]
      exact loadWithFallbacks_failed env req
        { s.stats with requested := s.stats.requested + 1 }

/-- Counters are monotone along any operation sequence. -/
theorem runOps_mono (env : Env) (ops : List Op) (s : AMState) :
    StatsLe s.stats (runOps env s ops).stats := by
  induction ops generalizing s with
  | nil => exact statsLe_refl s.stats
  | cons op rest ih =>
    exact statsLe_trans (stepOp_mono env s op) (ih (stepOp env s op))

/-- The `failed` counter is constant along any operation sequence. -/
theorem runOps_failed (env : Env) (ops : List Op) (s : AMState) :
    (runOps env s ops).stats.failed = s.stats.failed := by
  induction ops generalizing s with
  | nil => rfl
  | cons op rest ih =>
    rw [runOps, ih (stepOp env s op), stepOp_failed]

/-! ## Claim theorems -/

/-- C6: for every request — whatever the character, style, case, city and
variant — the candidate list built by `_buildFallbackPaths` is non-empty
and its last element is the fixed global fallback `assets/missing.png`,
which is therefore probed only after all style/variant candidates. -/
theorem candidates_end_in_global_fallback (req : Request) :
    buildFallbackPaths req ≠ [] ∧
    (buildFallbackPaths req).getLast? = some "assets/missing.png" := by
  unfold buildFallbackPaths
  constructor
  · simp
  · exact List.getLast?_concat _

/-- C8: every stats counter is monotonically non-decreasing along any
sequence of `get` and `clearCache` operations, and `clearCache` leaves the
counters untouched — so no operation ever resets a counter (the "reset
only by an explicit cache clear" reading holds as a safety property). -/
theorem stats_counters_monotone :
    (∀ (env : Env) (s : AMState) (ops : List Op),
      StatsLe s.stats (runOps env s ops).stats) ∧
    (∀ s : AMState, (clearCache s).stats = s.stats) :=
  ⟨fun env s ops => runOps_mono env ops s, fun _ => rfl⟩

/-- C10: no `AssetManager` operation increments the `failed` counter; after
any sequence of `get` and `clearCache` calls from a fresh manager, the
`failed` field of the `getStats` snapshot is 0. -/
theorem failed_counter_always_zero (env : Env) (ops : List Op) :
    (getStats (runOps env initialAMState ops)).failed = 0 := by
  have h := runOps_failed env ops initialAMState
  simp only [getStats]
  rw [h]
  rfl

/-- C3: once a `get` call for a request has completed, a second sequential
`get` for the same request returns the identical result, performs no
existence probe (its probe log is empty), increments `cached` and
`requested` by 1, and leaves `loaded` unchanged. -/
theorem cache_idempotence (env : Env) (s : AMState) (req : Request) :
    (AssetManager.get env (AssetManager.get env s req).state req).url =
      (AssetManager.get env s req).url ∧
    (AssetManager.get env (AssetManager.get env s req).state req).log = [] ∧
    (AssetManager.get env
        (AssetManager.get env s req).state req).state.stats.cached =
      (AssetManager.get env s req).state.stats.cached + 1 ∧
    (AssetManager.get env
        (AssetManager.get env s req).state req).state.stats.requested =
      (AssetManager.get env s req).state.stats.requested + 1 ∧
    (AssetManager.get env
        (AssetManager.get env s req).state req).state.stats.loaded =
      (AssetManager.get env s req).state.stats.loaded := by
  cases h : alookup? (cacheKey req) s.cache with
  | some url => simp [AssetManager.get, h]
  | none => simp [AssetManager.get, h, alookup?]

/-- The synthesized SVG body literally embeds the requested character. -/
theorem fallbackSVGBody_embeds (ch style : String) (rand : Nat) :
    ∃ pre post, fallbackSVGBody ch style rand = pre ++ ch ++ post := by
  dsimp only [fallbackSVGBody]
  exact ⟨_, _, rfl⟩

/-- C1: `get` never throws (it is a total function here); when the
existence check fails for every candidate path, including the terminal
global fallback, `get` still resolves — returning the synthesized SVG data
URL (which begins with `data:image/svg+xml` and whose SVG source embeds the
requested character) and incrementing the `fallbacks` counter by 1. -/
theorem get_total_failure_synthesizes_fallback (env : Env) (s : AMState)
    (req : Request)
    (hcache : alookup? (cacheKey req) s.cache = none)
    (hfail : ∀ p ∈ buildFallbackPaths req, env.fileExists p = false) :
    (AssetManager.get env s req).url =
      "data:image/svg+xml;charset=utf-8," ++
        encodeURIComponent (fallbackSVGBody req.char
          (if req.charCase = "" then req.style
           else req.style ++ "-" ++ req.charCase) env.rand) ∧
    (∃ rest, (AssetManager.get env s req).url =
      "data:image/svg+xml" ++ rest) ∧
    (∃ pre post,
      fallbackSVGBody req.char
          (if req.charCase = "" then req.style
           else req.style ++ "-" ++ req.charCase) env.rand =
        pre ++ req.char ++ post) ∧
    (AssetManager.get env s req).state.stats.fallbacks =
      s.stats.fallbacks + 1 := by
  have hload : tryPaths env.fileExists (buildFallbackPaths req) =
      (none, buildFallbackPaths req) :=
    tryPaths_none env.fileExists (buildFallbackPaths req) hfail
  have hurl : (AssetManager.get env s req).url =
      "data:image/svg+xml;charset=utf-8," ++
        encodeURIComponent (fallbackSVGBody req.char
          (if req.charCase = "" then req.style
           else req.style ++ "-" ++ req.charCase) env.rand) := by
    simp [AssetManager.get, hcache, loadWithFallbacks, hload,
      generateFallbackLetterSVG]
  refine ⟨hurl, ⟨";charset=utf-8," ++
    encodeURIComponent (fallbackSVGBody req.char
      (if req.charCase = "" then req.style
       else req.style ++ "-" ++ req.charCase) env.rand), ?_⟩,
    fallbackSVGBody_embeds _ _ _, ?_⟩
  · have hlit : ("data:image/svg+xml;charset=utf-8," : String) =
        "data:image/svg+xml" ++ ";charset=utf-8," := by decide
    rw [hurl, hlit, strAppendAssoc]
  · simp [AssetManager.get, hcache, loadWithFallbacks, hload]

/-- Witness for C1 at the concrete request `reqA` against an environment
where nothing exists. -/
theorem get_total_failure_synthesizes_fallback_witness :
    (∃ rest, (AssetManager.get envNothing initialAMState reqA).url =
      "data:image/svg+xml" ++ rest) ∧
    (AssetManager.get envNothing initialAMState reqA).state.stats.fallbacks =
      initialAMState.stats.fallbacks + 1 :=
  ⟨(get_total_failure_synthesizes_fallback envNothing initialAMState reqA
      rfl (fun _ _ => rfl)).2.1,
   (get_total_failure_synthesizes_fallback envNothing initialAMState reqA
      rfl (fun _ _ => rfl)).2.2.2⟩

/-- C2: at most one resolution per key is in flight.  First conjunct: when
a key is neither memoized nor in flight, the first arriving `get` call
starts the (single) probe sequence and registers its promise ticket, and a
second concurrent arrival for the same key joins exactly that ticket — it
starts no probe sequence of its own (`probesStarted` grows by 1 across
both arrivals), and, holding the same promise, receives the same eventual
result.  Second conjunct: within the one probe sequence, candidates are
visited in list order without repetition, so the existence check runs at
most once per candidate path whenever the candidate list is
duplicate-free. -/
theorem concurrent_same_key_single_flight :
    (∀ (s : CoState) (k : String),
      alookup? k s.cache = none → alookup? k s.loading = none →
      (arrive s k).1 = GetOutcome.started s.nextTicket ∧
      (arrive (arrive s k).2 k).1 = GetOutcome.joined s.nextTicket ∧
      ((arrive (arrive s k).2 k).2).probesStarted = s.probesStarted + 1) ∧
    (∀ (env : Env) (st : AMState) (req : Request),
      (buildFallbackPaths req).Nodup →
      (AssetManager.get env st req).log.Nodup) := by
  constructor
  · intro s k h1 h2
    simp [arrive, h1, h2, alookup?]
  · intro env st req hnd
    cases h : alookup? (cacheKey req) st.cache with
    | some url => simp [AssetManager.get, h]
    | none =>
      simp only [AssetManager.get, h]
      have hs := tryPaths_log_sublist env.fileExists (buildFallbackPaths req)
      rcases htp : tryPaths env.fileExists (buildFallbackPaths req)
        with ⟨o, log⟩
      rw [htp] at hs
      simp only [loadWithFallbacks, htp]
      cases o <;> simpa using List.Nodup.sublist hs hnd

/-- Witness for C2: a fresh shared state, the key of `reqA`, and the
duplicate-free candidate list of `reqA`. -/
theorem concurrent_same_key_single_flight_witness :
    ((arrive ⟨[], [], 0, 0⟩ (cacheKey reqA)).1 = GetOutcome.started 0 ∧
     (arrive (arrive ⟨[], [], 0, 0⟩ (cacheKey reqA)).2 (cacheKey reqA)).1 =
       GetOutcome.joined 0 ∧
     ((arrive (arrive ⟨[], [], 0, 0⟩ (cacheKey reqA)).2 (cacheKey reqA)).2).probesStarted =
       0 + 1) ∧
    (AssetManager.get envCityFallbackOnly initialAMState reqA).log.Nodup :=
  ⟨concurrent_same_key_single_flight.1 ⟨[], [], 0, 0⟩ (cacheKey reqA)
      rfl rfl,
   concurrent_same_key_single_flight.2 envCityFallbackOnly initialAMState
      reqA (by decide)⟩

/-- C4: for a letter character the candidate list is, in order, the
primary city path, the city fallback path, then the same
letter/style/case at each of the other four variant numbers in ascending
order skipping the requested one, and finally the global fallback;
moreover, for the request `{char: A, style: sans, case: upper, city: NYC,
variant: 01}` in an environment where only
`assets/Alphabet/cities/NYC/fallback/sans-upper/01.jpg` exists, `get`
returns exactly that path and `loaded` increments by 1. -/
theorem letter_candidate_order_and_example (req : Request)
    (h : matchesSingle isAsciiAlpha req.char = true) :
    (buildFallbackPaths req =
      ["assets/Alphabet/cities/" ++ req.city ++ "/Alphabet/" ++
         toUpperStr req.char ++ "/" ++ (req.style ++ "-" ++ req.charCase) ++
         "/" ++ padStart2 req.variant ++ ".jpg",
       "assets/Alphabet/cities/" ++ req.city ++ "/fallback/" ++
         (req.style ++ "-" ++ req.charCase) ++ "/" ++
         padStart2 req.variant ++ ".jpg"] ++
      ["01", "02", "03", "04", "05"].filterMap (fun v =>
        if v ≠ padStart2 req.variant then
          some ("assets/Alphabet/cities/" ++ req.city ++ "/Alphabet/" ++
            toUpperStr req.char ++ "/" ++
            (req.style ++ "-" ++ req.charCase) ++ "/" ++ v ++ ".jpg")
        else none) ++
      ["assets/missing.png"]) ∧
    (AssetManager.get envCityFallbackOnly initialAMState reqA).url =
      "assets/Alphabet/cities/NYC/fallback/sans-upper/01.jpg" ∧
    (AssetManager.get envCityFallbackOnly initialAMState reqA).state.stats.loaded =
      initialAMState.stats.loaded + 1 := by
  refine ⟨?_, by decide, by decide⟩
  simp only [buildFallbackPaths, buildFallbackPre, h, loopVariants_eq]
  rfl

/-- Witness for C4 at the spec's worked example `reqA`. -/
theorem letter_candidate_order_and_example_witness :
    (AssetManager.get envCityFallbackOnly initialAMState reqA).url =
      "assets/Alphabet/cities/NYC/fallback/sans-upper/01.jpg" ∧
    (AssetManager.get envCityFallbackOnly initialAMState reqA).state.stats.loaded =
      initialAMState.stats.loaded + 1 :=
  ⟨(letter_candidate_order_and_example reqA (by decide)).2.1,
   (letter_candidate_order_and_example reqA (by decide)).2.2⟩

/-- C7: before the terminal global fallback is appended, the candidate
list has exactly 6 entries for a letter (primary, city fallback, four
other variants) and exactly 5 for any non-letter — digits and symbols
alike (primary plus four other variants) — whenever the padded requested
variant is one of 01..05. -/
theorem candidate_counts (req : Request)
    (hv : padStart2 req.variant ∈ ["01", "02", "03", "04", "05"]) :
    (matchesSingle isAsciiAlpha req.char = true →
      (buildFallbackPre req).length = 6) ∧
    (matchesSingle isAsciiAlpha req.char = false →
      (buildFallbackPre req).length = 5) := by
  constructor
  · intro h
    simp only [buildFallbackPre, h, if_true]
    rw [List.length_append, loopVariants_length _ _ hv]
    simp
  · intro h
    by_cases hd : matchesSingle isAsciiDigit req.char
    · simp only [buildFallbackPre, h, hd, Bool.false_eq_true, if_false,
        if_true]
      rw [List.length_append, loopVariants_length _ _ hv]
      simp
    · simp only [buildFallbackPre, h, hd, Bool.false_eq_true, if_false]
      rw [List.length_append, loopVariants_length _ _ hv]
      simp

/-- Witness for C7: the letter request `reqA` yields 6 pre-fallback
candidates, a digit request yields 5. -/
theorem candidate_counts_witness :
    (buildFallbackPre reqA).length = 6 ∧
    (buildFallbackPre ⟨"5", "sans", "", "NYC", "03"⟩).length = 5 :=
  ⟨(candidate_counts reqA (by decide)).1 (by decide),
   (candidate_counts ⟨"5", "sans", "", "NYC", "03"⟩ (by decide)).2
     (by decide)⟩

/-- C9: for a character of an unsupported class — neither a digit, nor a
mapped symbol, nor an ASCII letter — `getLetterPath` returns no candidate
for any variant, and `getLetterVariants` (with assets detected, so probing
is live) goes straight to fallback synthesis, returning only the SVG data
URL, independently of the environment. -/
theorem unsupported_char_resolves_to_synthesis (db : DBState)
    (ch styleKey location : String)
    (hd : matchesSingle isAsciiDigit ch = false)
    (hs : matchesSingle isDbSymbolChar ch = false)
    (ha : matchesSingle isAsciiAlpha ch = false)
    (hdet : db.assetsDetected = true) :
    (∀ variantIndex,
      getLetterPath db ch styleKey location variantIndex = none) ∧
    (∀ env : Env, getLetterVariants env db ch styleKey location false =
      [generateFallbackLetterSVG ch styleKey env.rand]) := by
  have hpath : ∀ i, getLetterPath db ch styleKey location i = none := by
    intro i
    simp [getLetterPath, hd, hs, ha]
  refine ⟨hpath, ?_⟩
  intro env
  simp [getLetterVariants, hd, hs, ha, hdet, hpath]

/-- Witness for C9 at the unmapped character tilde. -/
theorem unsupported_char_resolves_to_synthesis_witness :
    getLetterPath dbDetectedNoFormat "~" "sans" "NYC" 1 = none ∧
    getLetterVariants envNothing dbDetectedNoFormat "~" "sans" "NYC"
        false =
      [generateFallbackLetterSVG "~" "sans" envNothing.rand] :=
  ⟨(unsupported_char_resolves_to_synthesis dbDetectedNoFormat "~" "sans"
      "NYC" (by decide) (by decide) (by decide) rfl).1 1,
   (unsupported_char_resolves_to_synthesis dbDetectedNoFormat "~" "sans"
      "NYC" (by decide) (by decide) (by decide) rfl).2 envNothing⟩

/-- C5 counterexample: the claim says the resolver "remembers process-wide
the first structural layout that ever succeeded, applying it preferentially
on subsequent requests".  In the environment `envUngroupedB` the ungrouped
layout (structure 2, no `Display` folder) succeeds during a request for
letter B — `getLetterVariants` returns exactly that path — yet the
process-wide memory `decorativePathFormat` remains `none` (the startup
pass only probes fixed paths for letters A and Q, which do not exist
here), and subsequent path construction via `getLetterPath` still uses the
default grouped `Display/Decorative` layout rather than the layout that
succeeded.  So a layout that succeeded is neither remembered nor applied
afterwards. -/
theorem decorative_memory_counterexample :
    (checkForAssets envUngroupedB).assetsDetected = true ∧
    (checkForAssets envUngroupedB).decorativePathFormat = none ∧
    getLetterVariants envUngroupedB (checkForAssets envUngroupedB) "B"
        "decorative" "NYC" false =
      ["assets/Alphabet/cities/NYC/Alphabet/B/Decorative-upper/01.jpg"] ∧
    getLetterPath (checkForAssets envUngroupedB) "B" "decorative" "NYC" 1 =
      some
        "assets/Alphabet/cities/NYC/Alphabet/B/Display/Decorative-upper/01.jpg" := by
  refine ⟨rfl, rfl, by decide, by decide⟩

/-- C5 (amended): for a decorative (or display) style request,
`LetterDatabase` tries three structural layouts — grouping folder with a
hyphenated style-case, no grouping folder, grouping folder without a
hyphen — in that order for each variant, and `getLetterVariants` gathers
the survivors for each of the first three variants; separately, the
one-time startup probe pass remembers process-wide the first layout probe
path that succeeds among its fixed list (letters A and Q, variant 01), and
`getLetterPath` applies the remembered layout when it later constructs
decorative paths.  Layouts that succeed only during per-request probing
are not remembered. -/
theorem decorative_layout_probing :
    (∀ (env : Env) (db : DBState) (ch ct loc : String) (i : Nat),
      tryDecorativePathVariations env db ch ct loc i =
        ["assets/Alphabet/cities/" ++ loc ++ "/Alphabet/" ++
           toUpperStr ch ++ "/Display/Decorative-" ++ ct ++ "/" ++
           padStart2 (Nat.repr i) ++ ".jpg",
         "assets/Alphabet/cities/" ++ loc ++ "/Alphabet/" ++
           toUpperStr ch ++ "/Decorative-" ++ ct ++ "/" ++
           padStart2 (Nat.repr i) ++ ".jpg",
         "assets/Alphabet/cities/" ++ loc ++ "/Alphabet/" ++
           toUpperStr ch ++ "/Display/Decorative/" ++ ct ++ "/" ++
           padStart2 (Nat.repr i) ++ ".jpg"].find? (pathExists env db)) ∧
    (∀ (env : Env) (db : DBState) (ch styleKey loc : String) (sf : Bool)
        (p1 p2 p3 : String),
      db.assetsDetected = true →
      matchesSingle isAsciiAlpha ch = true →
      (styleKey = "decorative" ∨ styleKey = "display") →
      tryDecorativePathVariations env db ch (caseTypeOf ch) loc 1 =
        some p1 →
      tryDecorativePathVariations env db ch (caseTypeOf ch) loc 2 =
        some p2 →
      tryDecorativePathVariations env db ch (caseTypeOf ch) loc 3 =
        some p3 →
      getLetterVariants env db ch styleKey loc sf = [p1, p2, p3]) ∧
    (∀ env : Env,
      (checkForAssets env).decorativePathFormat =
        ["assets/Alphabet/cities/NYC/Alphabet/A/Display/Decorative-upper/01.jpg",
         "assets/Alphabet/cities/NYC/Alphabet/A/Decorative-upper/01.jpg",
         "assets/Alphabet/cities/NYC/Alphabet/A/Display/Decorative/upper/01.jpg",
         "assets/Alphabet/cities/NYC/Alphabet/A/display/decorative-upper/01.jpg",
         "assets/Alphabet/cities/NYC/Alphabet/Q/Display/Decorative-upper/01.jpg",
         "assets/Alphabet/cities/NYC/Alphabet/Q/Decorative-upper/01.jpg"].find?
          env.fileExists) ∧
    getLetterPath dbUngroupedFormat "b" "decorative" "NYC" 2 =
      some "assets/Alphabet/cities/NYC/Alphabet/B/Decorative-lower/02.jpg" := by
  refine ⟨fun env db ch ct loc i => rfl, ?_, fun env => rfl, by decide⟩
  intro env db ch styleKey loc sf p1 p2 p3 hdet ha hsk h1 h2 h3
  have hsk2 : (styleKey == "decorative" || styleKey == "display") = true := by
    rcases hsk with rfl | rfl <;> rfl
  simp [getLetterVariants, hdet, ha, hsk2, h1, h2, h3]

/-- Witness for C5 (amended): with the ungrouped layout present for letter
B at variants 01..03, the three gathered variants are exactly those paths,
and the startup pass of that very environment remembers nothing. -/
theorem decorative_layout_probing_witness :
    getLetterVariants envUngroupedB123 dbDetectedNoFormat "B" "decorative"
        "NYC" false =
      ["assets/Alphabet/cities/NYC/Alphabet/B/Decorative-upper/01.jpg",
       "assets/Alphabet/cities/NYC/Alphabet/B/Decorative-upper/02.jpg",
       "assets/Alphabet/cities/NYC/Alphabet/B/Decorative-upper/03.jpg"] ∧
    (checkForAssets envUngroupedB123).decorativePathFormat = none := by
  refine ⟨decorative_layout_probing.2.1 envUngroupedB123 dbDetectedNoFormat
    "B" "decorative" "NYC" false _ _ _ rfl (by decide) (Or.inl rfl)
    (by decide) (by decide) (by decide), ?_⟩
  rw [decorative_layout_probing.2.2.1 envUngroupedB123]
  decide
